import Mathlib

/-!
Shallow embedding of the IPDK docker network plugin (`plugin.go`).

The embedding models the three in-memory tables (`nwMap`, `epMap`, `brMap`
with its two counters), the boltdb-backed ledger with its four buckets
(`global`, `nwMap`, `epMap`, `brMap`), the gob record serialization, and the
protocol handlers `handlerCreateNetwork`, `handlerDeleteNetwork`,
`handlerCreateEndpoint`, `handlerDeleteEndpoint`, together with `initDb`.

External collaborators (the filesystem `os.Mkdir`, the out-of-process
`gnmi-cli` / `ovs-p4ctl` / `ip link` commands, and boltdb's per-operation
success) are modelled as boolean success oracles collected in `ExtWorld`;
the handlers record every attempted side effect in an `Effect` trace.
Handlers are modelled after JSON decoding of the request body succeeded:
the wire layer is out of scope.
-/

namespace IpdkPlugin

/-- `epVal` from plugin.go: the endpoint record stored in `epMap`. -/
structure epVal where
  IP : String
  vhostuserPort : String
  ipdkInterface : String
deriving DecidableEq

/-- `nwVal` from plugin.go: the network record stored in `nwMap`.
`Gateway` (a `net.IPNet` in the source) is modelled by its textual CIDR. -/
structure nwVal where
  Bridge : String
  Gateway : String
deriving DecidableEq

/-! ### Association-list model of the Go maps and boltdb buckets -/

/-- Go map lookup `m[k]` returning `none` when the key is absent. -/
def mapGet {α : Type} (k : String) : List (String × α) → Option α
  | [] => none
  | (k1, v) :: rest => if k1 = k then some v else mapGet k rest

/-- Go map deletion `delete(m, k)` (also boltdb `Delete`). -/
def mapDel {α : Type} (k : String) (m : List (String × α)) : List (String × α) :=
  m.filter (fun e => !(e.1 == k))

/-- Go map assignment `m[k] = v` (also boltdb `Put`): replaces any entry
under the same key. -/
def mapPut {α : Type} (k : String) (v : α) (m : List (String × α)) : List (String × α) :=
  (k, v) :: mapDel k m

/-! ### gob serialization model

`dbAdd` gob-encodes records to a byte stream before `Put`; `initDb`
gob-decodes each stored value.  Bytes are modelled as `List Nat`; a string
is encoded as its length followed by its character codes, a record as the
concatenation of its fields' encodings. -/

def encString (s : String) : List Nat :=
  s.length :: s.data.map Char.toNat

/-- Decode one length-prefixed string, returning it with the remaining bytes. -/
def decString : List Nat → Option (String × List Nat)
  | [] => none
  | n :: rest =>
    if n ≤ rest.length then
      some (String.mk ((rest.take n).map Char.ofNat), rest.drop n)
    else none

def encNwVal (v : nwVal) : List Nat :=
  encString v.Bridge ++ encString v.Gateway

def decNwVal (bs : List Nat) : Option nwVal :=
  match decString bs with
  | none => none
  | some (b, rest) =>
    match decString rest with
    | some (g, []) => some { Bridge := b, Gateway := g }
    | _ => none

def encEpVal (v : epVal) : List Nat :=
  encString v.IP ++ encString v.vhostuserPort ++ encString v.ipdkInterface

def decEpVal (bs : List Nat) : Option epVal :=
  match decString bs with
  | none => none
  | some (i, rest) =>
    match decString rest with
    | none => none
    | some (p, rest2) =>
      match decString rest2 with
      | some (d, []) => some { IP := i, vhostuserPort := p, ipdkInterface := d }
      | _ => none

/-- gob encoding of the `int` bridge id stored in the `brMap` bucket. -/
def encInt (n : Nat) : List Nat := [n]

def decInt : List Nat → Option Nat
  | [n] => some n
  | _ => none

/-! ### Ledger: the boltdb database with its four buckets -/

/-- The boltdb file with the four buckets created by `dbTableInit`. -/
structure Ledger where
  global : List (String × List Nat)
  nwTbl : List (String × List Nat)
  epTbl : List (String × List Nat)
  brTbl : List (String × List Nat)
deriving DecidableEq

/-! ### Process state -/

/-- The package-level mutable state of plugin.go: the three maps, the two
counters held in `brMap`, the (otherwise unused) package variable
`intfCounter`, and the open database. -/
structure PluginState where
  epMap : List (String × epVal)
  nwMap : List (String × nwVal)
  brMap : List (String × Nat)
  brCount : Nat
  intfCount : Nat
  intfCounter : Nat
  led : Ledger
deriving DecidableEq

/-- `init()` in plugin.go: empty maps, `brCount = 1`, `intfCount = 1`
(`intfCounter` still holds its zero value until `initDb` runs). -/
def initState (led : Ledger) : PluginState :=
  { epMap := [], nwMap := [], brMap := [],
    brCount := 1, intfCount := 1, intfCounter := 0, led := led }

/-! ### External world and side-effect traces -/

/-- Success oracles for the external collaborators: `os.Mkdir`, the
`gnmi-cli` and `ovs-p4ctl` commands run through `docker exec`, the
`ip link add`/`ip link del` commands, and boltdb `Put`/`Delete`
(oracles keyed by bucket and key). -/
structure ExtWorld where
  mkdirOk : String → Bool
  gnmiOk : String → String → String → Bool
  p4ctlOk : String → Nat → Bool
  linkAddOk : String → Bool
  linkDelOk : String → Bool
  putOk : String → String → Bool
  delOk : String → String → Bool

/-- One attempted side effect, with its success flag where it can fail.
`allocBr`/`allocIntf` record a counter allocation (performed under the
`brMap` lock in the source). -/
inductive Effect where
  | mkdir (path : String) (ok : Bool)
  | allocBr (n : Nat)
  | allocIntf (n : Nat)
  | gnmi (name host sock : String) (ok : Bool)
  | p4ctl (ipStr : String) (intf : Nat) (ok : Bool)
  | linkAdd (port : String) (ok : Bool)
  | linkDel (port : String) (ok : Bool)
  | rmDir (path : String)
  | dbPut (tbl key : String) (ok : Bool)
  | dbDel (tbl key : String) (ok : Bool)
deriving DecidableEq

/-- The handler's result as seen by the docker daemon.  `nilPanic` models a
Go runtime nil-pointer dereference inside the handler: the request dies
with no response of the protocol's form. -/
inductive Outcome where
  | ok
  | err (msg : String)
  | nilPanic (what : String)
deriving DecidableEq

/-! ### `net.ParseCIDR` model (IPv4 dotted-quad form) -/

/-- Split a character list at every occurrence of `sep`. -/
def splitOnChar (sep : Char) : List Char → List (List Char)
  | [] => [[]]
  | c :: cs =>
    let r := splitOnChar sep cs
    if c = sep then [] :: r
    else
      match r with
      | [] => [[c]]
      | g :: gs => (c :: g) :: gs

/-- Numeric value of a nonempty decimal digit string. -/
def natOfDigits : List Char → Option Nat
  | [] => none
  | cs => cs.foldl (fun acc c =>
      match acc with
      | none => none
      | some n => if c.isDigit then some (n * 10 + (c.toNat - 48)) else none)
      (some 0)

/-- Model of `net.ParseCIDR` restricted to the IPv4 dotted-quad form used by
this plugin; returns the textual IP on success (the handler only ever uses
the parsed IP through `fmt.Sprintf("%s", ip)`). -/
def parseCIDR (s : String) : Option String :=
  match splitOnChar '/' s.data with
  | [ipcs, maskcs] =>
    match natOfDigits maskcs with
    | none => none
    | some m =>
      if m ≤ 32 then
        let octs := (splitOnChar '.' ipcs).map natOfDigits
        if octs.length = 4 ∧ octs.all (fun o => o.elim false (· ≤ 255)) then
          some (String.mk ipcs)
        else none
      else none
  | _ => none

/-- `strings.Replace(s, ".", "", -1)`. -/
def stripDots (s : String) : String :=
  String.mk (s.data.filter (fun c => !(c == '.')))

/-! ### Ledger operations (`dbAdd` / `dbDelete`)

`dbAdd` gob-encodes the value and `Put`s it into the named bucket; a failed
`Put` leaves the bucket unchanged and is reported to the caller (every
caller in plugin.go only logs it).  `dbDelete` likewise. -/

def dbAddNw (w : ExtWorld) (key : String) (v : nwVal) (led : Ledger) : Ledger × Effect :=
  if w.putOk "nwMap" key then
    ({ led with nwTbl := mapPut key (encNwVal v) led.nwTbl }, .dbPut "nwMap" key true)
  else (led, .dbPut "nwMap" key false)

def dbAddEp (w : ExtWorld) (key : String) (v : epVal) (led : Ledger) : Ledger × Effect :=
  if w.putOk "epMap" key then
    ({ led with epTbl := mapPut key (encEpVal v) led.epTbl }, .dbPut "epMap" key true)
  else (led, .dbPut "epMap" key false)

def dbAddBr (w : ExtWorld) (key : String) (n : Nat) (led : Ledger) : Ledger × Effect :=
  if w.putOk "brMap" key then
    ({ led with brTbl := mapPut key (encInt n) led.brTbl }, .dbPut "brMap" key true)
  else (led, .dbPut "brMap" key false)

def dbDelNw (w : ExtWorld) (key : String) (led : Ledger) : Ledger × Effect :=
  if w.delOk "nwMap" key then
    ({ led with nwTbl := mapDel key led.nwTbl }, .dbDel "nwMap" key true)
  else (led, .dbDel "nwMap" key false)

def dbDelEp (w : ExtWorld) (key : String) (led : Ledger) : Ledger × Effect :=
  if w.delOk "epMap" key then
    ({ led with epTbl := mapDel key led.epTbl }, .dbDel "epMap" key true)
  else (led, .dbDel "epMap" key false)

def dbDelBr (w : ExtWorld) (key : String) (led : Ledger) : Ledger × Effect :=
  if w.delOk "brMap" key then
    ({ led with brTbl := mapDel key led.brTbl }, .dbDel "brMap" key true)
  else (led, .dbDel "brMap" key false)

/-! ### Protocol requests (after JSON decoding) -/

/-- `api.CreateNetworkRequest` as used by the handler: the network id and
`req.IPv4Data[0].Gateway` rendered as text. -/
structure CreateNetworkRequest where
  NetworkID : String
  GatewayCIDR : String
deriving DecidableEq

/-- `api.CreateEndpointRequest` as used by the handler. -/
structure CreateEndpointRequest where
  NetworkID : String
  EndpointID : String
  Address : String
deriving DecidableEq

/-! ### Handlers -/

/-- `handlerCreateNetwork`: unconditionally overwrites `nwMap[id]` with a
record whose bridge is the fixed string `"br"`, persists it, then under the
`brMap` lock assigns the next bridge sequence number and persists that.
Failed `dbAdd` calls are only logged (`glog.Errorf`). -/
def handlerCreateNetwork (w : ExtWorld) (req : CreateNetworkRequest) (s : PluginState) :
    Outcome × PluginState × List Effect :=
  let v : nwVal := { Bridge := "br", Gateway := req.GatewayCIDR }
  let m1 := mapPut req.NetworkID v s.nwMap
  let r1 := dbAddNw w req.NetworkID v s.led
  let n := s.brCount
  let bm := mapPut req.NetworkID n s.brMap
  let r2 := dbAddBr w req.NetworkID n r1.1
  (.ok,
   { s with nwMap := m1, brMap := bm, brCount := n + 1, led := r2.1 },
   [r1.2, .allocBr n, r2.2])

/-- `handlerDeleteNetwork`: reads `nwMap.m[id].Bridge` before deleting; a
missing entry is a nil `*nwVal` and the field read panics.  Otherwise the
entry and the bridge entry are removed from memory and the ledger (failed
`dbDelete`s only logged). -/
def handlerDeleteNetwork (w : ExtWorld) (id : String) (s : PluginState) :
    Outcome × PluginState × List Effect :=
  match mapGet id s.nwMap with
  | none => (.nilPanic "nwMap entry", s, [])
  | some _ =>
    let r1 := dbDelNw w id s.led
    let r2 := dbDelBr w id r1.1
    (.ok,
     { s with nwMap := mapDel id s.nwMap, brMap := mapDel id s.brMap, led := r2.1 },
     [r1.2, r2.2])

/-- `handlerCreateEndpoint`: validates the address, reads
`nwMap.m[req.NetworkID].Bridge` (a missing entry is a nil `*nwVal`: the
field read panics before the `bridge == ""` guard can fire), then under the
`nwMap`/`epMap`/`brMap` locks runs the four provisioning steps in order —
`os.Mkdir` of the socket directory, the `gnmi-cli` virtual-device command,
the `ovs-p4ctl add-entry` forwarding rule, `ip link add ... type dummy` —
aborting on the first failure with no rollback.  The interface index is
taken from `brMap.intfCount` (post-incremented) after the mkdir succeeds;
the stored record's `ipdkInterface` field reads the counter again after the
increment.  A failed `dbAdd` is only logged. -/
def handlerCreateEndpoint (w : ExtWorld) (req : CreateEndpointRequest) (s : PluginState) :
    Outcome × PluginState × List Effect :=
  if req.Address = "" then
    (.err "Error: IP Address parameter not provided in docker run", s, [])
  else
    match parseCIDR req.Address with
    | none => (.err "Error: Invalid IP Address", s, [])
    | some ip =>
      match mapGet req.NetworkID s.nwMap with
      | none => (.nilPanic "nwMap entry", s, [])
      | some nv =>
        if nv.Bridge = "" then (.err "Error: incompatible network", s, [])
        else
          let vhostPort := ip
          let socketpath := "/tmp/vhostuser_" ++ ip
          if w.mkdirOk socketpath = false then
            (.err ("Error making socket path " ++ socketpath), s, [.mkdir socketpath false])
          else
            let ipdk_intf := s.intfCount
            let s1 := { s with intfCount := ipdk_intf + 1 }
            let netname := stripDots ("net_vhost" ++ toString ipdk_intf)
            let nethost := stripDots ("host_" ++ toString ipdk_intf)
            if w.gnmiOk netname nethost socketpath = false then
              (.err "Error EndPointCreate: gnmi-cli", s1,
               [.mkdir socketpath true, .allocIntf ipdk_intf,
                .gnmi netname nethost socketpath false])
            else if w.p4ctlOk ip ipdk_intf = false then
              (.err "Error ovs-p4ctl", s1,
               [.mkdir socketpath true, .allocIntf ipdk_intf,
                .gnmi netname nethost socketpath true, .p4ctl ip ipdk_intf false])
            else if w.linkAddOk vhostPort = false then
              (.err "Error EndPointCreate: ip link add", s1,
               [.mkdir socketpath true, .allocIntf ipdk_intf,
                .gnmi netname nethost socketpath true, .p4ctl ip ipdk_intf true,
                .linkAdd vhostPort false])
            else
              let record : epVal :=
                { IP := req.Address, vhostuserPort := vhostPort,
                  ipdkInterface := toString s1.intfCount }
              let s2 := { s1 with epMap := mapPut req.EndpointID record s1.epMap }
              let r1 := dbAddEp w req.EndpointID record s2.led
              (.ok, { s2 with led := r1.1 },
               [.mkdir socketpath true, .allocIntf ipdk_intf,
                .gnmi netname nethost socketpath true, .p4ctl ip ipdk_intf true,
                .linkAdd vhostPort true, r1.2])

/-- `handlerDeleteEndpoint`: reads `epMap.m[id].vhostuserPort`; a missing
entry is a nil `*epVal` and the field read panics.  Otherwise the record is
removed from memory and ledger, the dummy interface is deleted (a failure
there is returned after the maps were already updated), and the socket
directory is removed (`os.RemoveAll`, whose result the source discards, so
it never produces an error response). -/
def handlerDeleteEndpoint (w : ExtWorld) (id : String) (s : PluginState) :
    Outcome × PluginState × List Effect :=
  match mapGet id s.epMap with
  | none => (.nilPanic "epMap entry", s, [])
  | some m =>
    let vhostPort := m.vhostuserPort
    let r1 := dbDelEp w id s.led
    let s1 := { s with epMap := mapDel id s.epMap, led := r1.1 }
    if w.linkDelOk vhostPort = false then
      (.err "Error EndPointCreate: ip link del", s1, [r1.2, .linkDel vhostPort false])
    else
      (.ok, s1,
       [r1.2, .linkDel vhostPort true, .rmDir ("/tmp/vhostuser_" ++ vhostPort)])

/-! ### `initDb`: startup rehydration -/

/-- Decode every entry of the `nwMap` bucket (`initDb` aborts startup on
the first decode error). -/
def decodeNwTable : List (String × List Nat) → Option (List (String × nwVal))
  | [] => some []
  | (k, bs) :: rest =>
    match decNwVal bs, decodeNwTable rest with
    | some v, some m => some ((k, v) :: m)
    | _, _ => none

/-- Decode every entry of the `epMap` bucket. -/
def decodeEpTable : List (String × List Nat) → Option (List (String × epVal))
  | [] => some []
  | (k, bs) :: rest =>
    match decEpVal bs, decodeEpTable rest with
    | some v, some m => some ((k, v) :: m)
    | _, _ => none

/-- Decode every entry of the `brMap` bucket. -/
def decodeBrTable : List (String × List Nat) → Option (List (String × Nat))
  | [] => some []
  | (k, bs) :: rest =>
    match decInt bs, decodeBrTable rest with
    | some v, some m => some ((k, v) :: m)
    | _, _ => none

/-- `initDb` after `init()`: reads the `"counter"` key of the `"global"`
bucket to seed the package variable `intfCounter`, falling back to `100`
when the read yields no int, then rehydrates the three maps from their
buckets, aborting (`none`) on any decode error.  The counter read is
modelled charitably as returning the stored int when one is present; in the
source even that path falls back to 100 because `dbGet` gob-decodes into a
nil `interface{}` — the divergence proved below does not depend on this.
The two allocation counters keep the values `init()` gave them:
`brCount = 1`, `intfCount = 1`.  -/
def initDb (led : Ledger) : Option PluginState :=
  let ctr :=
    match mapGet "counter" led.global with
    | none => 100
    | some bs =>
      match decInt bs with
      | some n => n
      | none => 100
  match decodeNwTable led.nwTbl, decodeEpTable led.epTbl, decodeBrTable led.brTbl with
  | some nm, some em, some bm =>
    some { epMap := em, nwMap := nm, brMap := bm,
           brCount := 1, intfCount := 1, intfCounter := ctr, led := led }
  | _, _, _ => none

/-! ### Interleaved operation sequences

Counter allocation always happens under the `brMap` lock, so any
interleaving of the four lifecycle handlers serializes its allocations;
a sequence of handler invocations models every such interleaving. -/

inductive Op where
  | createNetwork (req : CreateNetworkRequest)
  | deleteNetwork (id : String)
  | createEndpoint (req : CreateEndpointRequest)
  | deleteEndpoint (id : String)

/-- Run one handler, keeping the state and the trace. -/
def step (w : ExtWorld) (s : PluginState) : Op → PluginState × List Effect
  | .createNetwork req => (handlerCreateNetwork w req s).2
  | .deleteNetwork id => (handlerDeleteNetwork w id s).2
  | .createEndpoint req => (handlerCreateEndpoint w req s).2
  | .deleteEndpoint id => (handlerDeleteEndpoint w id s).2

/-- Run a sequence of handler invocations, concatenating the traces. -/
def runOps (w : ExtWorld) (s : PluginState) : List Op → PluginState × List Effect
  | [] => (s, [])
  | op :: rest =>
    let r1 := step w s op
    let r2 := runOps w r1.1 rest
    (r2.1, r1.2 ++ r2.2)

/-- The bridge sequence numbers returned by allocations, in order. -/
def brAllocs (tr : List Effect) : List Nat :=
  tr.filterMap (fun e => match e with | .allocBr n => some n | _ => none)

/-- The interface indices returned by allocations, in order. -/
def intfAllocs (tr : List Effect) : List Nat :=
  tr.filterMap (fun e => match e with | .allocIntf n => some n | _ => none)

/-! ### Lock acquisition model

Each handler's mutex operations, in source order (deferred unlocks run
LIFO at return; release order is irrelevant to the ordering discipline). -/

inductive LockId where
  | nw
  | ep
  | br
deriving DecidableEq

/-- The position of each table in the documented Network → Endpoint →
Bridge order. -/
def lockRank : LockId → Nat
  | .nw => 0
  | .ep => 1
  | .br => 2

inductive LockEvent where
  | acq (l : LockId)
  | rel (l : LockId)
deriving DecidableEq

/-- `handlerCreateNetwork`: `nwMap.Lock` (deferred unlock), `brMap.Lock`,
`brMap.Unlock`. -/
def createNetworkLocks : List LockEvent :=
  [.acq .nw, .acq .br, .rel .br, .rel .nw]

/-- `handlerDeleteNetwork`: `nwMap.Lock` (deferred unlock), `brMap.Lock`,
`brMap.Unlock`. -/
def deleteNetworkLocks : List LockEvent :=
  [.acq .nw, .acq .br, .rel .br, .rel .nw]

/-- `handlerCreateEndpoint`: a first `nwMap` critical section for the
bridge lookup, then `nwMap.Lock`, `epMap.Lock`, `brMap.Lock` with deferred
unlocks. -/
def createEndpointLocks : List LockEvent :=
  [.acq .nw, .rel .nw, .acq .nw, .acq .ep, .acq .br, .rel .br, .rel .ep, .rel .nw]

/-- `handlerDeleteEndpoint`: `epMap.Lock`, `nwMap.Lock`, `nwMap.Unlock`,
`epMap.Unlock` — the endpoint lock is taken first. -/
def deleteEndpointLocks : List LockEvent :=
  [.acq .ep, .acq .nw, .rel .nw, .rel .ep]

/-- `handlerJoin`: `nwMap.Lock`, `epMap.Lock`, `nwMap.Unlock`,
`epMap.Unlock`. -/
def joinLocks : List LockEvent :=
  [.acq .nw, .acq .ep, .rel .nw, .rel .ep]

/-- A lock-event sequence respects the fixed order when every acquisition
happens while only lower-ranked locks are held. -/
def respectsOrderFrom (held : List LockId) : List LockEvent → Bool
  | [] => true
  | .acq l :: rest =>
    held.all (fun h => lockRank h < lockRank l) && respectsOrderFrom (l :: held) rest
  | .rel l :: rest => respectsOrderFrom (held.filter (fun h => !(h == l))) rest

def respectsOrder (evs : List LockEvent) : Bool :=
  respectsOrderFrom [] evs

/-! ### Concrete worlds, requests and states used for evaluation -/

/-- A world where every external step and every ledger operation succeeds. -/
def allOkWorld : ExtWorld :=
  { mkdirOk := fun _ => true, gnmiOk := fun _ _ _ => true, p4ctlOk := fun _ _ => true,
    linkAddOk := fun _ => true, linkDelOk := fun _ => true,
    putOk := fun _ _ => true, delOk := fun _ _ => true }

/-- A world where every external step succeeds but every ledger `Put` fails. -/
def noPutWorld : ExtWorld :=
  { allOkWorld with putOk := fun _ _ => false }

def emptyLedger : Ledger :=
  { global := [], nwTbl := [], epTbl := [], brTbl := [] }

/-- A state holding one network `"n1"`, as `handlerCreateNetwork` builds it. -/
def oneNetState : PluginState :=
  { initState emptyLedger with
    nwMap := [("n1", { Bridge := "br", Gateway := "10.0.0.1/24" })],
    brMap := [("n1", 1)], brCount := 2 }

/-- A well-formed `CreateEndpoint` request against network `"n1"`. -/
def goodEpReq : CreateEndpointRequest :=
  { NetworkID := "n1", EndpointID := "ep1", Address := "10.0.0.5/24" }

/-- A `CreateEndpoint` request naming a network with no `nwMap` entry. -/
def missingNetEpReq : CreateEndpointRequest :=
  { NetworkID := "missing-net", EndpointID := "ep1", Address := "10.0.0.5/24" }

/-- A `CreateEndpoint` request whose address has an out-of-range octet. -/
def badAddrEpReq : CreateEndpointRequest :=
  { NetworkID := "n1", EndpointID := "ep1", Address := "10.0.0.300/24" }

def goodNwReq : CreateNetworkRequest :=
  { NetworkID := "n2", GatewayCIDR := "10.0.0.1/24" }

/-- A ledger whose `global` bucket stores `500` under `"counter"` and which
holds network `"n1"`. -/
def counterLedger : Ledger :=
  { global := [("counter", encInt 500)],
    nwTbl := [("n1", encNwVal { Bridge := "br", Gateway := "10.0.0.1/24" })],
    epTbl := [], brTbl := [("n1", encInt 1)] }

/-! ### Claim statements over the embedding -/

/-- The four-step provisioning contract of `handlerCreateEndpoint` once
validation and the bridge lookup have passed (C3): the steps run in the
fixed order mkdir → gnmi-cli → ovs-p4ctl → ip-link-add; the first failing
step aborts with an error, the effects of completed steps stay (the trace
records them and nothing compensates), and no endpoint record is stored in
`epMap` or put to the ledger. -/
def ProvisioningSpec (w : ExtWorld) (req : CreateEndpointRequest) (s : PluginState)
    (ip : String) : Prop :=
  let sp := "/tmp/vhostuser_" ++ ip
  let nn := stripDots ("net_vhost" ++ toString s.intfCount)
  let nh := stripDots ("host_" ++ toString s.intfCount)
  let r := handlerCreateEndpoint w req s
  (w.mkdirOk sp = false →
    r = (.err ("Error making socket path " ++ sp), s, [.mkdir sp false])) ∧
  (w.mkdirOk sp = true → w.gnmiOk nn nh sp = false →
    r.1 = .err "Error EndPointCreate: gnmi-cli" ∧
    r.2.2 = [.mkdir sp true, .allocIntf s.intfCount, .gnmi nn nh sp false] ∧
    r.2.1.epMap = s.epMap ∧ r.2.1.led = s.led) ∧
  (w.mkdirOk sp = true → w.gnmiOk nn nh sp = true → w.p4ctlOk ip s.intfCount = false →
    r.1 = .err "Error ovs-p4ctl" ∧
    r.2.2 = [.mkdir sp true, .allocIntf s.intfCount, .gnmi nn nh sp true,
             .p4ctl ip s.intfCount false] ∧
    r.2.1.epMap = s.epMap ∧ r.2.1.led = s.led) ∧
  (w.mkdirOk sp = true → w.gnmiOk nn nh sp = true → w.p4ctlOk ip s.intfCount = true →
   w.linkAddOk ip = false →
    r.1 = .err "Error EndPointCreate: ip link add" ∧
    r.2.2 = [.mkdir sp true, .allocIntf s.intfCount, .gnmi nn nh sp true,
             .p4ctl ip s.intfCount true, .linkAdd ip false] ∧
    r.2.1.epMap = s.epMap ∧ r.2.1.led = s.led) ∧
  (w.mkdirOk sp = true → w.gnmiOk nn nh sp = true → w.p4ctlOk ip s.intfCount = true →
   w.linkAddOk ip = true →
    r.1 = .ok ∧
    r.2.2 = [.mkdir sp true, .allocIntf s.intfCount, .gnmi nn nh sp true,
             .p4ctl ip s.intfCount true, .linkAdd ip true,
             .dbPut "epMap" req.EndpointID (w.putOk "epMap" req.EndpointID)])

/-- Ledger-write failures are logged only (C4): on both `CreateNetwork` and
a fully provisioned `CreateEndpoint` with every `Put` failing, the caller
still receives a success response and the in-memory tables hold the new
records, while the ledger is left untouched. -/
def PersistFailureSpec (w : ExtWorld) (nreq : CreateNetworkRequest)
    (ereq : CreateEndpointRequest) (s t : PluginState) (ip : String) : Prop :=
  let rn := handlerCreateNetwork w nreq s
  let re := handlerCreateEndpoint w ereq t
  rn.1 = .ok ∧
  mapGet nreq.NetworkID rn.2.1.nwMap =
    some { Bridge := "br", Gateway := nreq.GatewayCIDR } ∧
  mapGet nreq.NetworkID rn.2.1.brMap = some s.brCount ∧
  rn.2.1.led = s.led ∧
  re.1 = .ok ∧
  mapGet ereq.EndpointID re.2.1.epMap =
    some { IP := ereq.Address, vhostuserPort := ip,
           ipdkInterface := toString (t.intfCount + 1) } ∧
  re.2.1.led = t.led

/-- The off-by-one between the provisioned interface index and the stored
record (C9): a successful `CreateEndpoint` provisions the device name and
the forwarding rule with index `s.intfCount`, but stores
`toString (s.intfCount + 1)` — the post-increment counter — in the
record's `ipdkInterface` field. -/
def RecordOffByOneSpec (w : ExtWorld) (req : CreateEndpointRequest) (s : PluginState)
    (ip : String) : Prop :=
  let r := handlerCreateEndpoint w req s
  r.1 = .ok ∧
  mapGet req.EndpointID r.2.1.epMap =
    some { IP := req.Address, vhostuserPort := ip,
           ipdkInterface := toString (s.intfCount + 1) } ∧
  Effect.gnmi (stripDots ("net_vhost" ++ toString s.intfCount))
      (stripDots ("host_" ++ toString s.intfCount)) ("/tmp/vhostuser_" ++ ip) true
    ∈ r.2.2 ∧
  Effect.p4ctl ip s.intfCount true ∈ r.2.2

/-! ### Helper lemmas -/

theorem mapGet_mapPut_self {α : Type} (k : String) (v : α) (m : List (String × α)) :
    mapGet k (mapPut k v m) = some v := by
  simp [mapPut, mapGet]

theorem dbAddNw_snd (w : ExtWorld) (k : String) (v : nwVal) (led : Ledger) :
    (dbAddNw w k v led).2 = .dbPut "nwMap" k (w.putOk "nwMap" k) := by
  by_cases h : w.putOk "nwMap" k = true <;> simp [dbAddNw, h]

theorem dbAddEp_snd (w : ExtWorld) (k : String) (v : epVal) (led : Ledger) :
    (dbAddEp w k v led).2 = .dbPut "epMap" k (w.putOk "epMap" k) := by
  by_cases h : w.putOk "epMap" k = true <;> simp [dbAddEp, h]

theorem dbAddBr_snd (w : ExtWorld) (k : String) (n : Nat) (led : Ledger) :
    (dbAddBr w k n led).2 = .dbPut "brMap" k (w.putOk "brMap" k) := by
  by_cases h : w.putOk "brMap" k = true <;> simp [dbAddBr, h]

theorem dbDelNw_snd (w : ExtWorld) (k : String) (led : Ledger) :
    (dbDelNw w k led).2 = .dbDel "nwMap" k (w.delOk "nwMap" k) := by
  by_cases h : w.delOk "nwMap" k = true <;> simp [dbDelNw, h]

theorem dbDelEp_snd (w : ExtWorld) (k : String) (led : Ledger) :
    (dbDelEp w k led).2 = .dbDel "epMap" k (w.delOk "epMap" k) := by
  by_cases h : w.delOk "epMap" k = true <;> simp [dbDelEp, h]

theorem dbDelBr_snd (w : ExtWorld) (k : String) (led : Ledger) :
    (dbDelBr w k led).2 = .dbDel "brMap" k (w.delOk "brMap" k) := by
  by_cases h : w.delOk "brMap" k = true <;> simp [dbDelBr, h]

/-! ### C1 -/

/-- C1: the claim says a `CreateEndpoint` against a network with no
`nwMap` entry fails with `UnknownNetworkError` returned to the caller.
The code instead reads `nwMap.m[req.NetworkID].Bridge` through a nil
`*nwVal` and panics before the (unreachable) `bridge == ""` guard; no
driver error response is produced.  The half of the claim that no
Provisioner step runs does hold: the trace is empty and the state
untouched. -/
theorem createEndpoint_missing_network_panics :
    handlerCreateEndpoint allOkWorld missingNetEpReq (initState emptyLedger) =
      (.nilPanic "nwMap entry", initState emptyLedger, []) := by
  decide

/-! ### C5 -/

/-- C5 counterexample: `handlerDeleteEndpoint` acquires the `epMap` lock
first and the `nwMap` lock second, violating the claimed fixed
Network → Endpoint → Bridge acquisition order. -/
theorem deleteEndpoint_lock_order_violated :
    respectsOrder deleteEndpointLocks = false ∧
    deleteEndpointLocks = [.acq .ep, .acq .nw, .rel .nw, .rel .ep] := by
  decide

/-- C5 (amended): every multi-table path except `handlerDeleteEndpoint`
acquires locks in the fixed order Network → Endpoint → Bridge;
`handlerDeleteEndpoint` alone acquires the Endpoint lock before the
Network lock. -/
theorem lock_order_except_deleteEndpoint :
    respectsOrder createNetworkLocks = true ∧
    respectsOrder deleteNetworkLocks = true ∧
    respectsOrder createEndpointLocks = true ∧
    respectsOrder joinLocks = true ∧
    respectsOrder deleteEndpointLocks = false ∧
    deleteEndpointLocks = [.acq .ep, .acq .nw, .rel .nw, .rel .ep] := by
  decide

/-! ### C6 -/

/-- C6: with `500` stored under `"counter"` in the `global` bucket,
`initDb` seeds the package variable `intfCounter` with it (here even
granting the read a success the source's nil-interface gob decode denies),
but the allocation counter `brMap.intfCount` still starts at `1`, and the
first `CreateEndpoint` allocates interface index `1` — not a value
continuing from the restored counter. -/
theorem restored_counter_not_used_for_allocation :
    (initDb counterLedger).map (fun s => s.intfCounter) = some 500 ∧
    (initDb counterLedger).map (fun s => s.intfCount) = some 1 ∧
    (initDb counterLedger).map
        (fun s => intfAllocs (handlerCreateEndpoint allOkWorld goodEpReq s).2.2) =
      some [1] := by
  decide

/-! ### C7 -/

/-- C7: a `CreateEndpoint` whose address is missing or fails
`net.ParseCIDR` returns an address error with the state (all three tables,
both counters, the ledger) unchanged and an empty side-effect trace. -/
theorem address_error_zero_side_effects (w : ExtWorld) (req : CreateEndpointRequest)
    (s : PluginState) (h : req.Address = "" ∨ parseCIDR req.Address = none) :
    (∃ msg, (handlerCreateEndpoint w req s).1 = .err msg) ∧
    (handlerCreateEndpoint w req s).2.1 = s ∧
    (handlerCreateEndpoint w req s).2.2 = [] := by
  rcases h with h | h
  · refine ⟨⟨"Error: IP Address parameter not provided in docker run", ?_⟩, ?_, ?_⟩ <;>
      simp [handlerCreateEndpoint, h]
  · by_cases ha : req.Address = ""
    · refine ⟨⟨"Error: IP Address parameter not provided in docker run", ?_⟩, ?_, ?_⟩ <;>
        simp [handlerCreateEndpoint, ha]
    · refine ⟨⟨"Error: Invalid IP Address", ?_⟩, ?_, ?_⟩ <;>
        simp [handlerCreateEndpoint, ha, h]

/-- C7 witness: the out-of-range address `"10.0.0.300/24"` fails to parse
and produces an error with no side effects. -/
theorem address_error_zero_side_effects_witness :
    (badAddrEpReq.Address = "" ∨ parseCIDR badAddrEpReq.Address = none) ∧
    ((∃ msg, (handlerCreateEndpoint allOkWorld badAddrEpReq oneNetState).1 = .err msg) ∧
     (handlerCreateEndpoint allOkWorld badAddrEpReq oneNetState).2.1 = oneNetState ∧
     (handlerCreateEndpoint allOkWorld badAddrEpReq oneNetState).2.2 = []) :=
  ⟨Or.inr (by decide),
   address_error_zero_side_effects allOkWorld badAddrEpReq oneNetState (Or.inr (by decide))⟩

/-! ### C10 -/

/-- C10: `handlerDeleteNetwork` and `handlerDeleteEndpoint` dereference the
looked-up record without guarding the absent case: a request whose id has
no entry panics on the nil pointer (no protocol error response, no state
change) instead of returning an error. -/
theorem delete_missing_id_derefs_nil (w : ExtWorld) (id : String) (s : PluginState)
    (h1 : mapGet id s.nwMap = none) (h2 : mapGet id s.epMap = none) :
    handlerDeleteNetwork w id s = (.nilPanic "nwMap entry", s, []) ∧
    handlerDeleteEndpoint w id s = (.nilPanic "epMap entry", s, []) := by
  constructor
  · simp [handlerDeleteNetwork, h1]
  · simp [handlerDeleteEndpoint, h2]

/-- C10 witness: deleting the unknown id `"zzz"` in the freshly initialized
state panics in both handlers. -/
theorem delete_missing_id_derefs_nil_witness :
    mapGet "zzz" (initState emptyLedger).nwMap = none ∧
    mapGet "zzz" (initState emptyLedger).epMap = none ∧
    (handlerDeleteNetwork allOkWorld "zzz" (initState emptyLedger) =
       (.nilPanic "nwMap entry", initState emptyLedger, []) ∧
     handlerDeleteEndpoint allOkWorld "zzz" (initState emptyLedger) =
       (.nilPanic "epMap entry", initState emptyLedger, [])) :=
  ⟨by decide, by decide,
   delete_missing_id_derefs_nil allOkWorld "zzz" (initState emptyLedger)
     (by decide) (by decide)⟩

/-! ### C3 -/

/-- C3: once validation and the bridge lookup pass, provisioning runs the
four steps in the fixed order (socket directory, dataplane virtual-device
command, forwarding rule, dummy interface); the first failure aborts with
an error while every earlier step's effect stays in the trace with nothing
compensating it, and no endpoint record reaches `epMap` or the ledger. -/
theorem provisioning_four_step_sequence (w : ExtWorld) (req : CreateEndpointRequest)
    (s : PluginState) (ip : String) (nv : nwVal)
    (ha : ¬ req.Address = "") (hp : parseCIDR req.Address = some ip)
    (hn : mapGet req.NetworkID s.nwMap = some nv) (hb : ¬ nv.Bridge = "") :
    ProvisioningSpec w req s ip := by
  unfold ProvisioningSpec
  refine ⟨?_, ?_, ?_, ?_, ?_⟩
  · intro h1
    simp [handlerCreateEndpoint, ha, hp, hn, hb, h1]
  · intro h1 h2
    simp [handlerCreateEndpoint, ha, hp, hn, hb, h1, h2]
  · intro h1 h2 h3
    simp [handlerCreateEndpoint, ha, hp, hn, hb, h1, h2, h3]
  · intro h1 h2 h3 h4
    simp [handlerCreateEndpoint, ha, hp, hn, hb, h1, h2, h3, h4]
  · intro h1 h2 h3 h4
    simp [handlerCreateEndpoint, ha, hp, hn, hb, h1, h2, h3, h4, dbAddEp_snd]

/-- C3 witness: the request `goodEpReq` on `oneNetState` satisfies the
provisioning contract (here with every step succeeding). -/
theorem provisioning_four_step_sequence_witness :
    (¬ goodEpReq.Address = "") ∧ parseCIDR goodEpReq.Address = some "10.0.0.5" ∧
    ProvisioningSpec allOkWorld goodEpReq oneNetState "10.0.0.5" :=
  ⟨by decide, by decide,
   provisioning_four_step_sequence allOkWorld goodEpReq oneNetState "10.0.0.5"
     { Bridge := "br", Gateway := "10.0.0.1/24" }
     (by decide) (by decide) (by decide) (by decide)⟩

/-! ### C4 -/

/-- C4: with every ledger `Put` failing, `CreateNetwork` and a fully
provisioned `CreateEndpoint` still answer success, the in-memory tables
hold the new records, and the ledger is untouched — the write failure is
only logged, so memory and durable state silently diverge. -/
theorem persistence_failure_logged_only (w : ExtWorld) (nreq : CreateNetworkRequest)
    (ereq : CreateEndpointRequest) (s t : PluginState) (ip : String) (nv : nwVal)
    (hput : ∀ tbl k, w.putOk tbl k = false)
    (ha : ¬ ereq.Address = "") (hp : parseCIDR ereq.Address = some ip)
    (hn : mapGet ereq.NetworkID t.nwMap = some nv) (hb : ¬ nv.Bridge = "")
    (hm : w.mkdirOk ("/tmp/vhostuser_" ++ ip) = true)
    (hg : ∀ a b c, w.gnmiOk a b c = true)
    (hp4 : ∀ a b, w.p4ctlOk a b = true)
    (hl : w.linkAddOk ip = true) :
    PersistFailureSpec w nreq ereq s t ip := by
  unfold PersistFailureSpec
  refine ⟨?_, ?_, ?_, ?_, ?_, ?_, ?_⟩ <;>
    simp [handlerCreateNetwork, handlerCreateEndpoint, dbAddNw, dbAddEp, dbAddBr,
          hput, ha, hp, hn, hb, hm, hg, hp4, hl, mapGet_mapPut_self]

/-- C4 witness: with `noPutWorld` both handlers succeed on concrete inputs
while the ledger stays empty. -/
theorem persistence_failure_logged_only_witness :
    (∀ tbl k, noPutWorld.putOk tbl k = false) ∧
    PersistFailureSpec noPutWorld goodNwReq goodEpReq
      (initState emptyLedger) oneNetState "10.0.0.5" :=
  ⟨fun _ _ => rfl,
   persistence_failure_logged_only noPutWorld goodNwReq goodEpReq
     (initState emptyLedger) oneNetState "10.0.0.5"
     { Bridge := "br", Gateway := "10.0.0.1/24" }
     (fun _ _ => rfl) (by decide) (by decide) (by decide) (by decide) (by decide)
     (fun _ _ _ => rfl) (fun _ _ => rfl) (by decide)⟩

/-! ### C9 -/

/-- C9: a successful `CreateEndpoint` provisions the dataplane with
interface index `s.intfCount` (in the virtual-device name and the
forwarding rule) but stores the post-increment counter value
`toString (s.intfCount + 1)` in the record's `ipdkInterface` field. -/
theorem record_stores_post_increment_index (w : ExtWorld)
    (req : CreateEndpointRequest) (s : PluginState) (ip : String) (nv : nwVal)
    (ha : ¬ req.Address = "") (hp : parseCIDR req.Address = some ip)
    (hn : mapGet req.NetworkID s.nwMap = some nv) (hb : ¬ nv.Bridge = "")
    (hm : w.mkdirOk ("/tmp/vhostuser_" ++ ip) = true)
    (hg : ∀ a b c, w.gnmiOk a b c = true)
    (hp4 : ∀ a b, w.p4ctlOk a b = true)
    (hl : w.linkAddOk ip = true) :
    RecordOffByOneSpec w req s ip := by
  unfold RecordOffByOneSpec
  refine ⟨?_, ?_, ?_, ?_⟩ <;>
    simp [handlerCreateEndpoint, ha, hp, hn, hb, hm, hg, hp4, hl,
          dbAddEp_snd, mapGet_mapPut_self]

/-- C9 witness: on `oneNetState` (counter at 1) the endpoint is provisioned
as `net_vhost1` with forwarding to index 1, while the stored record says
`"2"`. -/
theorem record_stores_post_increment_index_witness :
    parseCIDR goodEpReq.Address = some "10.0.0.5" ∧
    RecordOffByOneSpec allOkWorld goodEpReq oneNetState "10.0.0.5" :=
  ⟨by decide,
   record_stores_post_increment_index allOkWorld goodEpReq oneNetState "10.0.0.5"
     { Bridge := "br", Gateway := "10.0.0.1/24" }
     (by decide) (by decide) (by decide) (by decide) (by decide)
     (fun _ _ _ => rfl) (fun _ _ => rfl) (by decide)⟩

/-! ### C8: serialization roundtrip and rehydration -/

theorem map_ofNat_toNat (l : List Char) : (l.map Char.toNat).map Char.ofNat = l := by
  induction l with
  | nil => rfl
  | cons c cs ih => simp [ih]

theorem decString_encString (s : String) (t : List Nat) :
    decString (encString s ++ t) = some (s, t) := by
  obtain ⟨d⟩ := s
  have hlen : (String.mk d).length = d.length := rfl
  have hdata : (String.mk d).data = d := rfl
  have hmap : (d.map Char.toNat).length = d.length := d.length_map Char.toNat
  simp only [encString, hlen, hdata, List.cons_append, decString]
  rw [if_pos (by rw [List.length_append, hmap]; omega)]
  rw [List.take_left' hmap, List.drop_left' hmap, map_ofNat_toNat]

theorem decNwVal_encNwVal (v : nwVal) : decNwVal (encNwVal v) = some v := by
  have h1 := decString_encString v.Bridge (encString v.Gateway)
  have h2 : decString (encString v.Gateway ++ []) = some (v.Gateway, []) :=
    decString_encString v.Gateway []
  rw [List.append_nil] at h2
  simp [decNwVal, encNwVal, h1, h2]

/-- Removing entries from a decodable bucket keeps it decodable. -/
theorem decodeNwTable_mapDel (k : String) :
    ∀ (l : List (String × List Nat)) (m : List (String × nwVal)),
      decodeNwTable l = some m →
      ∃ m2, decodeNwTable (mapDel k l) = some m2 := by
  intro l
  induction l with
  | nil => exact fun m _ => ⟨[], rfl⟩
  | cons e rest ih =>
    intro m h
    obtain ⟨k1, bs⟩ := e
    simp only [decodeNwTable] at h
    cases hv : decNwVal bs with
    | none => rw [hv] at h; simp at h
    | some v =>
      cases hr : decodeNwTable rest with
      | none => rw [hv, hr] at h; simp at h
      | some m1 =>
        obtain ⟨m2, hm2⟩ := ih m1 hr
        by_cases hk : k1 = k
        · exact ⟨m2, by simpa [mapDel, hk] using hm2⟩
        · refine ⟨(k1, v) :: m2, ?_⟩
          have : mapDel k ((k1, bs) :: rest) = (k1, bs) :: mapDel k rest := by
            simp [mapDel, hk]
          rw [this]
          simp [decodeNwTable, hv, hm2]

/-- C8: persisting a network record (`dbAdd` into the `nwMap` bucket with
a successful `Put`), discarding memory, and rebuilding through `initDb`
yields the identical record under its key. -/
theorem persist_rehydrate_identity (w : ExtWorld) (k : String) (v : nwVal)
    (led : Ledger) (nm : List (String × nwVal)) (em : List (String × epVal))
    (bm : List (String × Nat))
    (hput : w.putOk "nwMap" k = true)
    (hnm : decodeNwTable led.nwTbl = some nm)
    (hem : decodeEpTable led.epTbl = some em)
    (hbm : decodeBrTable led.brTbl = some bm) :
    (initDb (dbAddNw w k v led).1).map (fun s => mapGet k s.nwMap) =
      some (some v) := by
  obtain ⟨m2, hm2⟩ := decodeNwTable_mapDel k led.nwTbl nm hnm
  simp [initDb, dbAddNw, hput, mapPut, decodeNwTable, hm2, hem, hbm,
        decNwVal_encNwVal, mapGet]

/-- C8 witness: persisting `{Bridge := "br", Gateway := "10.0.0.1/24"}`
under `"n1"` into the empty ledger and rehydrating returns it intact. -/
theorem persist_rehydrate_identity_witness :
    allOkWorld.putOk "nwMap" "n1" = true ∧
    (initDb (dbAddNw allOkWorld "n1" { Bridge := "br", Gateway := "10.0.0.1/24" }
        emptyLedger).1).map (fun s => mapGet "n1" s.nwMap) =
      some (some { Bridge := "br", Gateway := "10.0.0.1/24" }) :=
  ⟨rfl,
   persist_rehydrate_identity allOkWorld "n1"
     { Bridge := "br", Gateway := "10.0.0.1/24" } emptyLedger [] [] []
     rfl rfl rfl rfl⟩

/-! ### C2: counter monotonicity across interleaved operations -/

theorem brAllocs_append (t1 t2 : List Effect) :
    brAllocs (t1 ++ t2) = brAllocs t1 ++ brAllocs t2 := by
  simp [brAllocs]

theorem intfAllocs_append (t1 t2 : List Effect) :
    intfAllocs (t1 ++ t2) = intfAllocs t1 ++ intfAllocs t2 := by
  simp [intfAllocs]

/-- Each operation either allocates no bridge id and keeps `brCount`, or
allocates exactly the current `brCount` and bumps it by one. -/
theorem step_brCount_spec (w : ExtWorld) (s : PluginState) (op : Op) :
    (brAllocs (step w s op).2 = [] ∧ (step w s op).1.brCount = s.brCount) ∨
    (brAllocs (step w s op).2 = [s.brCount] ∧
     (step w s op).1.brCount = s.brCount + 1) := by
  cases op <;>
    unfold step handlerCreateNetwork handlerDeleteNetwork handlerCreateEndpoint
      handlerDeleteEndpoint <;>
    repeat' split <;>
    try simp_all [brAllocs, dbAddNw_snd, dbAddBr_snd, dbAddEp_snd, dbDelNw_snd,
      dbDelBr_snd, dbDelEp_snd]

/-- Each operation either allocates no interface index and keeps
`intfCount`, or allocates exactly the current `intfCount` and bumps it by
one. -/
theorem step_intfCount_spec (w : ExtWorld) (s : PluginState) (op : Op) :
    (intfAllocs (step w s op).2 = [] ∧ (step w s op).1.intfCount = s.intfCount) ∨
    (intfAllocs (step w s op).2 = [s.intfCount] ∧
     (step w s op).1.intfCount = s.intfCount + 1) := by
  cases op <;>
    unfold step handlerCreateNetwork handlerDeleteNetwork handlerCreateEndpoint
      handlerDeleteEndpoint <;>
    repeat' split <;>
    try simp_all [intfAllocs, dbAddNw_snd, dbAddBr_snd, dbAddEp_snd, dbDelNw_snd,
      dbDelBr_snd, dbDelEp_snd]

/-- Any counter whose step behaviour is allocate-current-then-increment
yields a strictly increasing allocation sequence over any operation list. -/
theorem runOps_allocs_increasing (f : List Effect → List Nat) (g : PluginState → Nat)
    (w : ExtWorld) (hf0 : f [] = [])
    (hf : ∀ t1 t2, f (t1 ++ t2) = f t1 ++ f t2)
    (hstep : ∀ s op, (f (step w s op).2 = [] ∧ g (step w s op).1 = g s) ∨
                     (f (step w s op).2 = [g s] ∧ g (step w s op).1 = g s + 1)) :
    ∀ (ops : List Op) (s : PluginState),
      List.Pairwise (· < ·) (f (runOps w s ops).2) ∧
      (∀ v ∈ f (runOps w s ops).2, g s ≤ v) ∧
      g s ≤ g (runOps w s ops).1 := by
  intro ops
  induction ops with
  | nil =>
    intro s
    simp [runOps, hf0]
  | cons op rest ih =>
    intro s
    have hr := ih (step w s op).1
    have hrun : runOps w s (op :: rest) =
        ((runOps w (step w s op).1 rest).1,
         (step w s op).2 ++ (runOps w (step w s op).1 rest).2) := rfl
    rw [hrun]
    simp only [hf]
    rcases hstep s op with ⟨he, hg⟩ | ⟨he, hg⟩
    · rw [he, List.nil_append]
      refine ⟨hr.1, ?_, ?_⟩
      · intro v hv
        have := hr.2.1 v hv
        omega
      · have := hr.2.2
        omega
    · rw [he, List.singleton_append]
      refine ⟨?_, ?_, ?_⟩
      · refine List.Pairwise.cons ?_ hr.1
        intro v hv
        have := hr.2.1 v hv
        omega
      · intro v hv
        rcases List.mem_cons.mp hv with hv | hv
        · omega
        · have := hr.2.1 v hv
          omega
      · have := hr.2.2
        omega

/-- C2: over every interleaving of create/delete network and endpoint
operations, the bridge sequence numbers and the interface indices handed
out are each strictly increasing — every allocation exceeds all earlier
ones and no value is reused, deletes included. -/
theorem counters_strictly_increasing (w : ExtWorld) (s : PluginState)
    (ops : List Op) :
    List.Pairwise (· < ·) (brAllocs (runOps w s ops).2) ∧
    List.Pairwise (· < ·) (intfAllocs (runOps w s ops).2) :=
  ⟨(runOps_allocs_increasing brAllocs (fun st => st.brCount) w rfl brAllocs_append
      (step_brCount_spec w) ops s).1,
   (runOps_allocs_increasing intfAllocs (fun st => st.intfCount) w rfl
      intfAllocs_append (step_intfCount_spec w) ops s).1⟩

end IpdkPlugin
